import Mathlib

/-!
Verification development for the tz-tracker repository.

The main scheduler script `scrape_tz.py` is embedded shallowly: its pure
helpers (`determine_stage`, `build_alert_message`, `build_info_message`,
`delete_message_by_id`'s status-code handling) become Lean functions, and the
effectful `main()` becomes a pure function from the loaded cache, the scraped
zone snapshot, the clock reading and the configuration flags to the list of
webhook operations issued and the cache contents persisted by `save_cache`.
The webhook collaborator is a parameter (`Env`): what each HTTP delete
returns and what id (or exception) each HTTP send produces.

The four watcher variants' send-minute gate (`should_send` /
`should_send_now`) is embedded per file at the end.
-/

/-- A webhook operation issued during a run: a message create (with its body)
or a delete of a message id. -/
inductive Op where
  | send (msg : String)
  | delete (id : String)
deriving DecidableEq, Repr

/-- Outcome of one `requests.post` in `send_discord_message`: either the HTTP
call raises (`raise_for_status` or network error propagates out of `main`), or
it succeeds and the response JSON's `id` field is returned (`data.get("id")`,
which may be absent). -/
inductive SendRes where
  | raise
  | ok (id : Option String)
deriving DecidableEq, Repr

/-- Outcome of the `requests.delete` inside `delete_message_by_id`: an HTTP
status code, or an exception. -/
inductive DeleteOutcome where
  | status (code : Nat)
  | exn
deriving DecidableEq, Repr

/-- The external collaborators of one run: the configured role id, the HTTP
outcome of deleting a given message id, and the outcome of the k-th message
send of the run (k counts sends in program order). -/
structure Env where
  roleId : String
  deleteHttp : String → DeleteOutcome
  send : Nat → SendRes

/-- The persisted JSON cache (`tz_alert_cache.json`) as used by `main`:
`last_info_message_id`, `last_alert_message_id` (either key may be absent or
set to `None`, which behave identically through `.get` and truthiness, so both
are `none` here), and the set of `f"{zone}_{stage}"` keys that were set to
`True` (dedup marks). -/
structure Cache where
  lastInfoMessageId : Option String
  lastAlertMessageId : Option String
  fired : List String
deriving DecidableEq, Repr

/-- Python truthiness of an optional string (`None` and `""` are falsy). -/
def truthyS : Option String → Bool
  | some s => s ≠ ""
  | none => false

/-- `cache.get(key)` truthiness for a dedup key (only `True` is ever stored). -/
def Cache.getFired (c : Cache) (k : String) : Bool := c.fired.contains k

/-- `cache[key] = True` for a dedup key. -/
def Cache.setFired (c : Cache) (k : String) : Cache :=
  { c with fired := if c.fired.contains k then c.fired else c.fired ++ [k] }

/-- `WATCHLIST` from `scrape_tz.py` (a set in the source; listed in the
source's textual order). -/
def WATCHLIST : List String :=
  ["Worldstone Keep", "Chaos Sanctuary", "The Secret Cow Level", "Cathedral"]

/-- `next_zone in WATCHLIST` where `next_zone` is `None` or a string: `None`
is a member of no string set. -/
def zoneInWatchlist : Option String → Bool
  | some z => WATCHLIST.contains z
  | none => false

/-- Python `x or 'Unknown'` on an optional string. -/
def orUnknown (o : Option String) : String :=
  match o with
  | some s => if s = "" then "Unknown" else s
  | none => "Unknown"

/-- `delete_message_by_id`: empty id returns `False` without any HTTP call;
HTTP 204 is a successful delete; 404 ("already removed manually") also counts
as `True`; any other status or an exception returns `False`. -/
def delete_message_by_id (messageId : String) (outcome : DeleteOutcome) : Bool :=
  if messageId = "" then false
  else
    match outcome with
    | DeleteOutcome.status code => if code = 204 then true else code = 404
    | DeleteOutcome.exn => false

/-- `determine_stage`: tolerance bands on the minutes remaining until the next
hour. -/
def determine_stage (minsToHour : Int) : String :=
  if minsToHour ≥ 50 then "initial"
  else if 26 ≤ minsToHour ∧ minsToHour ≤ 35 then "30min"
  else if 12 ≤ minsToHour ∧ minsToHour ≤ 18 then "15min"
  else if 3 ≤ minsToHour ∧ minsToHour ≤ 7 then "5min"
  else "outside_window"

/-- One entry of `ZONE_THEME` (dict with keys `header` and `initial_tail`). -/
structure Theme where
  header : String
  initialTail : String
deriving DecidableEq, Repr

/-- `ZONE_THEME` from `scrape_tz.py` (header strings reproduced byte-for-byte
from the source file, which stores them double-encoded). -/
def ZONE_THEME : List (String × Theme) :=
  [("Worldstone Keep", ⟨"âš”ï¸ðŸ”¥", "Prepare yourselves for the onslaught"⟩),
   ("Chaos Sanctuary", ⟨"ðŸ˜ˆðŸ”¥", "Diablo stirs..."⟩),
   ("The Secret Cow Level", ⟨"ðŸ„ðŸ¥›", "Moooove fast â€” gates open soon"⟩),
   ("Cathedral", ⟨"ðŸ°ðŸ•¯ï¸", "Sanctify your gear"⟩)]

/-- `GENERIC_THEME` from `scrape_tz.py`. -/
def GENERIC_THEME : Theme := ⟨"âš”ï¸ðŸ”¥", "Prepare yourselves"⟩

/-- `ZONE_THEME.get(zone, GENERIC_THEME)`. -/
def themeFor (zone : String) : Theme :=
  match ZONE_THEME.lookup zone with
  | some t => t
  | none => GENERIC_THEME

/-- The 15-minute flavor dict inside `build_alert_message`. -/
def flavor15 (zone : String) : String :=
  match List.lookup zone
      [("Worldstone Keep", "15 minutes to assemble!"),
       ("Chaos Sanctuary", "15 minutes until chaos reigns!"),
       ("The Secret Cow Level", "15 minutes until the herd is unleashed!"),
       ("Cathedral", "15 minutes until the bells toll!")] with
  | some s => s
  | none => "15 minutes remaining!"

/-- The 5-minute flavor dict inside `build_alert_message`. -/
def flavor5 (zone : String) : String :=
  match List.lookup zone
      [("Worldstone Keep", "Final call â€” fight begins"),
       ("Chaos Sanctuary", "Final call â€” Diablo awaits"),
       ("The Secret Cow Level", "Final call â€” the pasture gates open"),
       ("Cathedral", "Final call â€” the bells will toll")] with
  | some s => s
  | none => "Final call"

/-- `build_alert_message(zone, stage, epoch)`: two-line alert, themed header
plus role ping with stage text. `ROLE_ID` (environment configuration in the
source) is an explicit parameter. -/
def build_alert_message (roleId zone stage : String) (epoch : Int) : String :=
  let theme := themeFor zone
  let h := theme.header
  let headerLine := s!"# {h} {zone} {h}"
  let tail := theme.initialTail
  let timingLine :=
    if stage = "initial" then
      s!"<@&{roleId}> **{zone}** up next! {tail} @ <t:{epoch}:t>."
    else if stage = "30min" then
      s!"<@&{roleId}> 30-minute warning! <t:{epoch}:R> @ <t:{epoch}:t>."
    else if stage = "15min" then
      let flavor := flavor15 zone
      s!"<@&{roleId}> {flavor} <t:{epoch}:R> @ <t:{epoch}:t>."
    else
      let flavor := flavor5 zone
      s!"<@&{roleId}> {flavor} <t:{epoch}:R> @ <t:{epoch}:t>!"
  headerLine ++ "\n" ++ timingLine

/-- `build_info_message(current_zone, current_end_epoch, next_zone,
next_start_epoch)`: the pingless informational status post. -/
def build_info_message (currentZone : Option String) (currentEndEpoch : Int)
    (nextZone : Option String) (nextStartEpoch : Int) : String :=
  let header := "# ðŸ•’ Terror Zone Status"
  let cur := orUnknown currentZone
  let nxt := orUnknown nextZone
  let curLine := s!"**Current:** {cur} (until <t:{currentEndEpoch}:t>)"
  let nxtLine := s!"**Next:** {nxt} (starts <t:{nextStartEpoch}:t>)"
  header ++ "\n" ++ curLine ++ "\n" ++ nxtLine

/-- Result of one full run of `main` (non-demo): the webhook operations issued
by the informational track and by the alert track, the cache contents on disk
after the run (the argument of the last `save_cache`, or the original file
contents when no save happened), and whether the run ended by an uncaught
send exception. -/
structure RunResult where
  infoOps : List Op
  alertOps : List Op
  persisted : Cache
  crashed : Bool
deriving DecidableEq, Repr

/-- Result of the alert track: operations issued, cache persisted on disk by
the end of the run, and whether the send raised. -/
structure TrackResult where
  ops : List Op
  saved : Cache
  crashed : Bool
deriving DecidableEq, Repr

/-- TRACK 1 of `main` (lines 211-225): when the stage guess is `initial` or
force is set, delete the previous info message (clearing the id on a
successful delete), send the new info message, record its id and save.  On a
send exception the whole run aborts with nothing saved yet.  Returns the
issued ops, the in-memory cache, the cache saved so far, and the number of
sends consumed. -/
def infoTrack (env : Env) (c0 : Cache) (cur nxt : Option String)
    (mins epochNext : Int) (force : Bool) :
    Except RunResult (List Op × Cache × Cache × Nat) :=
  if determine_stage mins = "initial" ∨ force = true then
    let infoMsg := build_info_message cur epochNext nxt epochNext
    let lastInfoId := c0.lastInfoMessageId.getD ""
    let delOps := if truthyS c0.lastInfoMessageId then [Op.delete lastInfoId] else []
    let c1 :=
      if truthyS c0.lastInfoMessageId &&
          delete_message_by_id lastInfoId (env.deleteHttp lastInfoId) then
        { c0 with lastInfoMessageId := none }
      else c0
    match env.send 0 with
    | SendRes.raise => Except.error ⟨delOps ++ [Op.send infoMsg], [], c0, true⟩
    | SendRes.ok newId =>
      let c2 := { c1 with lastInfoMessageId := newId }
      Except.ok (delOps ++ [Op.send infoMsg], c2, c2, 1)
  else Except.ok ([], c0, c0, 0)

/-- TRACK 2 of `main` (lines 227-272): the special `initial`-stage cleanup
when the next zone is not watched, the window / watchlist / dedup gates, then
delete-previous-alert (with an immediate save on success), build and send the
alert, and record the dedup key and new id.  `c` is the in-memory cache after
track 1, `sv` the cache saved so far, `k` the number of sends already
consumed. -/
def alertTrack (env : Env) (c sv : Cache) (k : Nat) (nxt : Option String)
    (mins epochNext : Int) (force : Bool) : TrackResult :=
  let stageGuess := determine_stage mins
  if force = false ∧ zoneInWatchlist nxt = false ∧ stageGuess = "initial" then
    let lastAlertId := c.lastAlertMessageId.getD ""
    if truthyS c.lastAlertMessageId then
      if delete_message_by_id lastAlertId (env.deleteHttp lastAlertId) then
        ⟨[Op.delete lastAlertId], { c with lastAlertMessageId := none }, false⟩
      else ⟨[Op.delete lastAlertId], sv, false⟩
    else ⟨[], sv, false⟩
  else
    let stage := determine_stage mins
    if force = false ∧ stage = "outside_window" then ⟨[], sv, false⟩
    else if zoneInWatchlist nxt = false ∧ force = false then ⟨[], sv, false⟩
    else
      let cacheKey := orUnknown nxt ++ "_" ++ stage
      if force = false ∧ c.getFired cacheKey = true then ⟨[], sv, false⟩
      else
        let lastAlertId := c.lastAlertMessageId.getD ""
        let delOps := if truthyS c.lastAlertMessageId then [Op.delete lastAlertId] else []
        let delOk := truthyS c.lastAlertMessageId &&
          delete_message_by_id lastAlertId (env.deleteHttp lastAlertId)
        let c1 := if delOk then { c with lastAlertMessageId := none } else c
        let sv1 := if delOk then c1 else sv
        let effectiveStage :=
          if force = true ∧ stage = "outside_window" then "initial" else stage
        let alertMsg := build_alert_message env.roleId (orUnknown nxt) effectiveStage epochNext
        match env.send k with
        | SendRes.raise => ⟨delOps ++ [Op.send alertMsg], sv1, true⟩
        | SendRes.ok newId =>
          ⟨delOps ++ [Op.send alertMsg],
           { c1.setFired cacheKey with lastAlertMessageId := newId }, false⟩

/-- `main()` without demo mode: early return when both scraped zones are
falsy, then track 1 followed by track 2. -/
def runMain (env : Env) (c0 : Cache) (cur nxt : Option String)
    (mins epochNext : Int) (force : Bool) : RunResult :=
  if truthyS nxt = false ∧ truthyS cur = false then ⟨[], [], c0, false⟩
  else
    match infoTrack env c0 cur nxt mins epochNext force with
    | Except.error r => r
    | Except.ok (iops, c, sv, k) =>
      let t := alertTrack env c sv k nxt mins epochNext force
      ⟨iops, t.ops, t.saved, t.crashed⟩

/-- The demo-mode loop (`for zone in WATCHLIST: send(...)`): one initial-stage
send per watchlist entry; an exception from a send aborts the loop. -/
def runDemoLoop (env : Env) (epochNext : Int) (zones : List String) (k : Nat) :
    List Op × Bool :=
  match zones with
  | [] => ([], false)
  | z :: rest =>
    let msg := build_alert_message env.roleId z "initial" epochNext
    match env.send k with
    | SendRes.raise => ([Op.send msg], true)
    | SendRes.ok _ =>
      let r := runDemoLoop env epochNext rest (k + 1)
      (Op.send msg :: r.1, r.2)

/-- `main()` including the `SEND_ALL_INITIALS` demo check: with the demo flag
set the run sends one initial message per watchlist zone and returns without
scraping or saving; otherwise it is `runMain`. -/
def runScript (env : Env) (demoFlag : Bool) (c0 : Cache) (cur nxt : Option String)
    (mins epochNext : Int) (force : Bool) : RunResult :=
  if demoFlag then
    let d := runDemoLoop env epochNext WATCHLIST 0
    ⟨[], d.1, c0, d.2⟩
  else runMain env c0 cur nxt mins epochNext force

/-- Is this operation a message create? -/
def Op.isSend : Op → Bool
  | Op.send _ => true
  | Op.delete _ => false

/-- The bodies of the message creates among a run's operations, in order. -/
def sendsOf (ops : List Op) : List String :=
  ops.filterMap fun o =>
    match o with
    | Op.send m => some m
    | Op.delete _ => none

/-- Whether any operation in the list is a message create. -/
def containsSend (ops : List Op) : Bool := ops.any Op.isSend

/-- How many message creates a list of operations contains. -/
def countSends (ops : List Op) : Nat := (sendsOf ops).length

/-- A wall-clock reading as the watcher scripts use it: only the fields a
`datetime` exposes that the send gate could consult. -/
structure ClockTime where
  year : Nat
  month : Nat
  day : Nat
  hour : Nat
  minute : Nat
  second : Nat
deriving DecidableEq, Repr

namespace Watcher

/-- `SEND_MINUTES` from `watcher.py`. -/
def SEND_MINUTES : List Nat := [5, 30, 45, 55]

/-- `should_send_now(now_local, force)` from `watcher.py`. -/
def should_send_now (nowLocal : ClockTime) (force : Bool) : Bool :=
  force || SEND_MINUTES.contains nowLocal.minute

end Watcher

namespace WatcherRequests

/-- `SEND_MINUTES` from `watcher_requests.py`. -/
def SEND_MINUTES : List Nat := [5, 30, 45, 55]

/-- `should_send(now_utc)` from `watcher_requests.py`; the module-global
`FORCE` flag is passed explicitly. -/
def should_send (FORCE : Bool) (nowUtc : ClockTime) : Bool :=
  FORCE || SEND_MINUTES.contains nowUtc.minute

end WatcherRequests

namespace WatcherPlaywright

/-- `SEND_MINUTES` from `watcher_playwright.py`. -/
def SEND_MINUTES : List Nat := [5, 30, 45, 55]

/-- `should_send(now_utc)` from `watcher_playwright.py`; the module-global
`FORCE` flag is passed explicitly. -/
def should_send (FORCE : Bool) (nowUtc : ClockTime) : Bool :=
  FORCE || SEND_MINUTES.contains nowUtc.minute

end WatcherPlaywright

namespace WawtcherRequests

/-- `SEND_MINUTES` from `wawtcher_requests.py`. -/
def SEND_MINUTES : List Nat := [5, 30, 45, 55]

/-- `should_send(now_utc)` from `wawtcher_requests.py`; the module-global
`FORCE` flag is passed explicitly. -/
def should_send (FORCE : Bool) (nowUtc : ClockTime) : Bool :=
  FORCE || SEND_MINUTES.contains nowUtc.minute

end WawtcherRequests

/-- C1: for every integer `minutes_to_next`, `determine_stage` returns
`initial` when `minutes_to_next >= 50`, `30min` when `26 <= m <= 35`, `15min`
when `12 <= m <= 18`, `5min` when `3 <= m <= 7`, and `outside_window` in all
other cases. -/
theorem determine_stage_bands (m : Int) :
    (m ≥ 50 → determine_stage m = "initial") ∧
    (26 ≤ m ∧ m ≤ 35 → determine_stage m = "30min") ∧
    (12 ≤ m ∧ m ≤ 18 → determine_stage m = "15min") ∧
    (3 ≤ m ∧ m ≤ 7 → determine_stage m = "5min") ∧
    (¬ m ≥ 50 ∧ ¬(26 ≤ m ∧ m ≤ 35) ∧ ¬(12 ≤ m ∧ m ≤ 18) ∧ ¬(3 ≤ m ∧ m ≤ 7) →
      determine_stage m = "outside_window") := by
  unfold determine_stage
  refine ⟨fun h => ?_, fun h => ?_, fun h => ?_, fun h => ?_, fun h => ?_⟩ <;>
    split_ifs <;> first | rfl | omega

/-- Witness for C1 at the checkpoints 55, 30, 15, 5 and the off-window
value 40. -/
theorem determine_stage_bands_witness :
    determine_stage 55 = "initial" ∧ determine_stage 30 = "30min" ∧
    determine_stage 15 = "15min" ∧ determine_stage 5 = "5min" ∧
    determine_stage 40 = "outside_window" :=
  ⟨(determine_stage_bands 55).1 (by decide),
   (determine_stage_bands 30).2.1 (by decide),
   (determine_stage_bands 15).2.2.1 (by decide),
   (determine_stage_bands 5).2.2.2.1 (by decide),
   (determine_stage_bands 40).2.2.2.2 (by decide)⟩

/-- C10: in each of the four watcher variants the send gate returns true
exactly when the force flag is set or the wall-clock minute is one of
5, 30, 45, 55, and it depends on no field of the clock reading other than
the minute. -/
theorem should_send_minute_gate (d : ClockTime) (force : Bool) :
    (Watcher.should_send_now d force = true ↔
      (force = true ∨ d.minute = 5 ∨ d.minute = 30 ∨ d.minute = 45 ∨ d.minute = 55)) ∧
    (WatcherRequests.should_send force d = Watcher.should_send_now d force) ∧
    (WatcherPlaywright.should_send force d = Watcher.should_send_now d force) ∧
    (WawtcherRequests.should_send force d = Watcher.should_send_now d force) ∧
    (∀ d2 : ClockTime, d2.minute = d.minute →
      Watcher.should_send_now d2 force = Watcher.should_send_now d force) := by
  refine ⟨?_, rfl, rfl, rfl, ?_⟩
  · simp [Watcher.should_send_now, Watcher.SEND_MINUTES]
  · intro d2 h
    simp [Watcher.should_send_now, Watcher.SEND_MINUTES, h]

/-- Witness for C10: minute 30 without force sends; a clock reading differing
in every other field but with the same minute decides identically. -/
theorem should_send_minute_gate_witness :
    Watcher.should_send_now ⟨2026, 1, 1, 10, 30, 0⟩ false = true ∧
    Watcher.should_send_now ⟨2027, 2, 2, 3, 30, 9⟩ false =
      Watcher.should_send_now ⟨2026, 1, 1, 10, 30, 0⟩ false :=
  ⟨(should_send_minute_gate ⟨2026, 1, 1, 10, 30, 0⟩ false).1.mpr (by decide),
   (should_send_minute_gate ⟨2026, 1, 1, 10, 30, 0⟩ false).2.2.2.2
     ⟨2027, 2, 2, 3, 30, 9⟩ rfl⟩

theorem getFired_setFired (c : Cache) (k : String) : (c.setFired k).getFired k = true := by
  unfold Cache.setFired Cache.getFired
  by_cases h : k ∈ c.fired <;> simp [h]

theorem zoneInWatchlist_truthy {nxt : Option String} (h : zoneInWatchlist nxt = true) :
    truthyS nxt = true := by
  cases nxt with
  | none => simp [zoneInWatchlist] at h
  | some z =>
    have hz : z ∈ WATCHLIST := by simpa [zoneInWatchlist] using h
    simp only [WATCHLIST, List.mem_cons, List.mem_singleton, List.not_mem_nil,
      or_false] at hz
    rcases hz with rfl | rfl | rfl | rfl <;> decide

theorem infoTrack_skip (env : Env) (c0 : Cache) (cur nxt : Option String)
    (mins e : Int) (force : Bool)
    (h : ¬ (determine_stage mins = "initial" ∨ force = true)) :
    infoTrack env c0 cur nxt mins e force = Except.ok ([], c0, c0, 0) := by
  simp only [infoTrack, if_neg h]

theorem infoTrack_send_ok (env : Env) (c0 : Cache) (cur nxt : Option String)
    (mins e : Int) (force : Bool) (newId : Option String)
    (hcond : determine_stage mins = "initial" ∨ force = true)
    (hsend : env.send 0 = SendRes.ok newId) :
    infoTrack env c0 cur nxt mins e force = Except.ok
      ((if truthyS c0.lastInfoMessageId
          then [Op.delete (c0.lastInfoMessageId.getD "")] else []) ++
        [Op.send (build_info_message cur e nxt e)],
       { (if truthyS c0.lastInfoMessageId &&
            delete_message_by_id (c0.lastInfoMessageId.getD "")
              (env.deleteHttp (c0.lastInfoMessageId.getD ""))
          then { c0 with lastInfoMessageId := none } else c0)
         with lastInfoMessageId := newId },
       { (if truthyS c0.lastInfoMessageId &&
            delete_message_by_id (c0.lastInfoMessageId.getD "")
              (env.deleteHttp (c0.lastInfoMessageId.getD ""))
          then { c0 with lastInfoMessageId := none } else c0)
         with lastInfoMessageId := newId },
       1) := by
  unfold infoTrack
  rw [if_pos hcond, hsend]

theorem infoTrack_send_raise (env : Env) (c0 : Cache) (cur nxt : Option String)
    (mins e : Int) (force : Bool)
    (hcond : determine_stage mins = "initial" ∨ force = true)
    (hsend : env.send 0 = SendRes.raise) :
    infoTrack env c0 cur nxt mins e force = Except.error
      ⟨(if truthyS c0.lastInfoMessageId
          then [Op.delete (c0.lastInfoMessageId.getD "")] else []) ++
        [Op.send (build_info_message cur e nxt e)],
       [], c0, true⟩ := by
  unfold infoTrack
  rw [if_pos hcond, hsend]

theorem alertTrack_dedup (env : Env) (c sv : Cache) (k : Nat) (nxt : Option String)
    (mins e : Int)
    (hz : zoneInWatchlist nxt = true)
    (hs : determine_stage mins ≠ "outside_window")
    (hk : c.getFired (orUnknown nxt ++ "_" ++ determine_stage mins) = true) :
    alertTrack env c sv k nxt mins e false = ⟨[], sv, false⟩ := by
  simp only [alertTrack]
  rw [if_neg (by simp [hz]), if_neg (by simp [hs]), if_neg (by simp [hz]),
    if_pos (by simp [hk])]

theorem alertTrack_send_ok (env : Env) (c sv : Cache) (k : Nat) (nxt : Option String)
    (mins e : Int) (force : Bool) (newId : Option String)
    (hgate : ¬ (force = false ∧ zoneInWatchlist nxt = false ∧
      determine_stage mins = "initial"))
    (hw1 : ¬ (force = false ∧ determine_stage mins = "outside_window"))
    (hw2 : ¬ (zoneInWatchlist nxt = false ∧ force = false))
    (hdedup : ¬ (force = false ∧
      c.getFired (orUnknown nxt ++ "_" ++ determine_stage mins) = true))
    (hsend : env.send k = SendRes.ok newId) :
    alertTrack env c sv k nxt mins e force =
      ⟨(if truthyS c.lastAlertMessageId
          then [Op.delete (c.lastAlertMessageId.getD "")] else []) ++
        [Op.send (build_alert_message env.roleId (orUnknown nxt)
          (if force = true ∧ determine_stage mins = "outside_window"
            then "initial" else determine_stage mins) e)],
       { Cache.setFired
          (if truthyS c.lastAlertMessageId &&
              delete_message_by_id (c.lastAlertMessageId.getD "")
                (env.deleteHttp (c.lastAlertMessageId.getD ""))
            then { c with lastAlertMessageId := none } else c)
          (orUnknown nxt ++ "_" ++ determine_stage mins)
         with lastAlertMessageId := newId },
       false⟩ := by
  simp only [alertTrack]
  rw [if_neg hgate, if_neg hw1, if_neg hw2, if_neg hdedup, hsend]

theorem alertTrack_send_raise (env : Env) (c sv : Cache) (k : Nat) (nxt : Option String)
    (mins e : Int) (force : Bool)
    (hgate : ¬ (force = false ∧ zoneInWatchlist nxt = false ∧
      determine_stage mins = "initial"))
    (hw1 : ¬ (force = false ∧ determine_stage mins = "outside_window"))
    (hw2 : ¬ (zoneInWatchlist nxt = false ∧ force = false))
    (hdedup : ¬ (force = false ∧
      c.getFired (orUnknown nxt ++ "_" ++ determine_stage mins) = true))
    (hsend : env.send k = SendRes.raise) :
    alertTrack env c sv k nxt mins e force =
      ⟨(if truthyS c.lastAlertMessageId
          then [Op.delete (c.lastAlertMessageId.getD "")] else []) ++
        [Op.send (build_alert_message env.roleId (orUnknown nxt)
          (if force = true ∧ determine_stage mins = "outside_window"
            then "initial" else determine_stage mins) e)],
       (if (truthyS c.lastAlertMessageId &&
            delete_message_by_id (c.lastAlertMessageId.getD "")
              (env.deleteHttp (c.lastAlertMessageId.getD ""))) = true
        then (if (truthyS c.lastAlertMessageId &&
              delete_message_by_id (c.lastAlertMessageId.getD "")
                (env.deleteHttp (c.lastAlertMessageId.getD ""))) = true
          then { c with lastAlertMessageId := none } else c)
        else sv),
       true⟩ := by
  simp only [alertTrack]
  rw [if_neg hgate, if_neg hw1, if_neg hw2, if_neg hdedup, hsend]

theorem alertTrack_cleanup (env : Env) (c sv : Cache) (k : Nat) (nxt : Option String)
    (mins e : Int) (hz : zoneInWatchlist nxt = false)
    (hi : determine_stage mins = "initial") :
    alertTrack env c sv k nxt mins e false =
      (if truthyS c.lastAlertMessageId then
        (if delete_message_by_id (c.lastAlertMessageId.getD "")
            (env.deleteHttp (c.lastAlertMessageId.getD "")) then
          ⟨[Op.delete (c.lastAlertMessageId.getD "")],
           { c with lastAlertMessageId := none }, false⟩
         else ⟨[Op.delete (c.lastAlertMessageId.getD "")], sv, false⟩)
       else ⟨[], sv, false⟩) := by
  simp only [alertTrack]
  rw [if_pos (by simp [hz, hi])]

theorem alertTrack_not_watched (env : Env) (c sv : Cache) (k : Nat)
    (nxt : Option String) (mins e : Int)
    (hz : zoneInWatchlist nxt = false) :
    sendsOf (alertTrack env c sv k nxt mins e false).ops = [] := by
  by_cases hi : determine_stage mins = "initial"
  · rw [alertTrack_cleanup env c sv k nxt mins e hz hi]
    split_ifs <;> simp [sendsOf, Op.isSend]
  · by_cases ho : determine_stage mins = "outside_window"
    · simp only [alertTrack]
      rw [if_neg (by simp [hi]), if_pos (by simp [ho])]
      simp [sendsOf]
    · simp only [alertTrack]
      rw [if_neg (by simp [hi]), if_neg (by simp [ho]), if_pos (by simp [hz])]
      simp [sendsOf]

/-- The in-memory cache after a successful informational-branch send: the
previous info id cleared when its delete succeeded, then the new id
recorded. -/
def infoCache (env : Env) (c0 : Cache) (newId : Option String) : Cache :=
  { (if truthyS c0.lastInfoMessageId &&
        delete_message_by_id (c0.lastInfoMessageId.getD "")
          (env.deleteHttp (c0.lastInfoMessageId.getD ""))
      then { c0 with lastInfoMessageId := none } else c0)
    with lastInfoMessageId := newId }

theorem infoCache_lastAlert (env : Env) (c0 : Cache) (newId : Option String) :
    (infoCache env c0 newId).lastAlertMessageId = c0.lastAlertMessageId := by
  unfold infoCache
  split <;> rfl

theorem getFired_infoCache (env : Env) (c0 : Cache) (newId : Option String)
    (k : String) : (infoCache env c0 newId).getFired k = c0.getFired k := by
  unfold infoCache Cache.getFired
  split <;> rfl

theorem runMain_skip_info (env : Env) (c0 : Cache) (cur nxt : Option String)
    (mins e : Int) (force : Bool)
    (hnz : ¬ (truthyS nxt = false ∧ truthyS cur = false))
    (hcond : ¬ (determine_stage mins = "initial" ∨ force = true)) :
    runMain env c0 cur nxt mins e force =
      ⟨[], (alertTrack env c0 c0 0 nxt mins e force).ops,
       (alertTrack env c0 c0 0 nxt mins e force).saved,
       (alertTrack env c0 c0 0 nxt mins e force).crashed⟩ := by
  unfold runMain
  rw [if_neg hnz, infoTrack_skip env c0 cur nxt mins e force hcond]

theorem runMain_info_ok (env : Env) (c0 : Cache) (cur nxt : Option String)
    (mins e : Int) (force : Bool) (newId : Option String)
    (hnz : ¬ (truthyS nxt = false ∧ truthyS cur = false))
    (hcond : determine_stage mins = "initial" ∨ force = true)
    (hsend : env.send 0 = SendRes.ok newId) :
    runMain env c0 cur nxt mins e force =
      ⟨(if truthyS c0.lastInfoMessageId
          then [Op.delete (c0.lastInfoMessageId.getD "")] else []) ++
        [Op.send (build_info_message cur e nxt e)],
       (alertTrack env (infoCache env c0 newId) (infoCache env c0 newId)
         1 nxt mins e force).ops,
       (alertTrack env (infoCache env c0 newId) (infoCache env c0 newId)
         1 nxt mins e force).saved,
       (alertTrack env (infoCache env c0 newId) (infoCache env c0 newId)
         1 nxt mins e force).crashed⟩ := by
  unfold runMain
  rw [if_neg hnz, infoTrack_send_ok env c0 cur nxt mins e force newId hcond hsend]
  rfl

theorem runMain_info_raise (env : Env) (c0 : Cache) (cur nxt : Option String)
    (mins e : Int) (force : Bool)
    (hnz : ¬ (truthyS nxt = false ∧ truthyS cur = false))
    (hcond : determine_stage mins = "initial" ∨ force = true)
    (hsend : env.send 0 = SendRes.raise) :
    runMain env c0 cur nxt mins e force =
      ⟨(if truthyS c0.lastInfoMessageId
          then [Op.delete (c0.lastInfoMessageId.getD "")] else []) ++
        [Op.send (build_info_message cur e nxt e)],
       [], c0, true⟩ := by
  unfold runMain
  rw [if_neg hnz, infoTrack_send_raise env c0 cur nxt mins e force hcond hsend]

theorem runMain_dedup_noop (env2 : Env) (P : Cache) (cur2 nxt : Option String)
    (mins2 e2 : Int)
    (hz : zoneInWatchlist nxt = true)
    (hs : determine_stage mins2 ≠ "outside_window")
    (hPk : P.getFired (orUnknown nxt ++ "_" ++ determine_stage mins2) = true) :
    (runMain env2 P cur2 nxt mins2 e2 false).alertOps = [] := by
  have hnt : truthyS nxt = true := zoneInWatchlist_truthy hz
  have hnz2 : ¬ (truthyS nxt = false ∧ truthyS cur2 = false) := by simp [hnt]
  by_cases hi2 : determine_stage mins2 = "initial"
  · cases h2 : env2.send 0 with
    | raise =>
      rw [runMain_info_raise env2 P cur2 nxt mins2 e2 false hnz2 (Or.inl hi2) h2]
    | ok nid =>
      rw [runMain_info_ok env2 P cur2 nxt mins2 e2 false nid hnz2 (Or.inl hi2) h2]
      rw [show RunResult.alertOps _ =
        (alertTrack env2 (infoCache env2 P nid) (infoCache env2 P nid)
          1 nxt mins2 e2 false).ops from rfl]
      rw [alertTrack_dedup env2 (infoCache env2 P nid) (infoCache env2 P nid)
        1 nxt mins2 e2 hz hs (by rw [getFired_infoCache]; exact hPk)]
  · rw [runMain_skip_info env2 P cur2 nxt mins2 e2 false hnz2 (by simp [hi2])]
    rw [show RunResult.alertOps _ =
      (alertTrack env2 P P 0 nxt mins2 e2 false).ops from rfl]
    rw [alertTrack_dedup env2 P P 0 nxt mins2 e2 hz hs hPk]

/-- C2: with force disabled and no intervening zone rotation, two consecutive
runs evaluating the same (next zone, stage) pair send exactly one alert: the
first run sends it and records the zone_stage dedup key in the persisted
cache, and the second run issues no webhook operation from the alert branch
(no send and no delete). -/
theorem alert_dedup_idempotent (env env2 : Env) (c0 : Cache)
    (cur cur2 nxt : Option String) (mins mins2 e e2 : Int)
    (hz : zoneInWatchlist nxt = true)
    (hs : determine_stage mins ≠ "outside_window")
    (hs2 : determine_stage mins2 = determine_stage mins)
    (hk : c0.getFired (orUnknown nxt ++ "_" ++ determine_stage mins) = false)
    (hsend : ∀ j, env.send j ≠ SendRes.raise) :
    countSends (runMain env c0 cur nxt mins e false).alertOps = 1 ∧
    (runMain env c0 cur nxt mins e false).persisted.getFired
      (orUnknown nxt ++ "_" ++ determine_stage mins) = true ∧
    (runMain env2 (runMain env c0 cur nxt mins e false).persisted cur2 nxt
      mins2 e2 false).alertOps = [] := by
  have hnt : truthyS nxt = true := zoneInWatchlist_truthy hz
  have hnz : ¬ (truthyS nxt = false ∧ truthyS cur = false) := by simp [hnt]
  have hgate : ¬ (false = false ∧ zoneInWatchlist nxt = false ∧
      determine_stage mins = "initial") := by simp [hz]
  have hw1 : ¬ (false = false ∧ determine_stage mins = "outside_window") := by
    simp [hs]
  have hw2 : ¬ (zoneInWatchlist nxt = false ∧ false = false) := by simp [hz]
  have hs2' : determine_stage mins2 ≠ "outside_window" := by
    rw [hs2]
    exact hs
  obtain ⟨id0, hid0⟩ : ∃ r, env.send 0 = SendRes.ok r := by
    cases h : env.send 0 with
    | raise => exact absurd h (hsend 0)
    | ok r => exact ⟨r, rfl⟩
  obtain ⟨id1, hid1⟩ : ∃ r, env.send 1 = SendRes.ok r := by
    cases h : env.send 1 with
    | raise => exact absurd h (hsend 1)
    | ok r => exact ⟨r, rfl⟩
  by_cases hi : determine_stage mins = "initial"
  · rw [runMain_info_ok env c0 cur nxt mins e false id0 hnz (Or.inl hi) hid0]
    have hdedup : ¬ (false = false ∧ (infoCache env c0 id0).getFired
        (orUnknown nxt ++ "_" ++ determine_stage mins) = true) := by
      rw [getFired_infoCache]
      simp [hk]
    dsimp only
    rw [alertTrack_send_ok env (infoCache env c0 id0) (infoCache env c0 id0)
      1 nxt mins e false id1 hgate hw1 hw2 hdedup hid1]
    dsimp only
    refine ⟨?_, ?_, ?_⟩
    · cases htr : truthyS (infoCache env c0 id0).lastAlertMessageId <;>
        simp [htr, countSends, sendsOf, Op.isSend]
    · exact getFired_setFired _ _
    · exact runMain_dedup_noop env2 _ cur2 nxt mins2 e2 hz hs2'
        (by rw [hs2]; exact getFired_setFired _ _)
  · rw [runMain_skip_info env c0 cur nxt mins e false hnz (by simp [hi])]
    dsimp only
    rw [alertTrack_send_ok env c0 c0 0 nxt mins e false id0 hgate hw1 hw2
      (by simp [hk]) hid0]
    dsimp only
    refine ⟨?_, ?_, ?_⟩
    · cases htr : truthyS c0.lastAlertMessageId <;>
        simp [htr, countSends, sendsOf, Op.isSend]
    · exact getFired_setFired _ _
    · exact runMain_dedup_noop env2 _ cur2 nxt mins2 e2 hz hs2'
        (by rw [hs2]; exact getFired_setFired _ _)

/-- A webhook environment in which every delete answers 204 and every send
succeeds returning id "N1" (used to instantiate theorems at concrete runs). -/
def envAllOk : Env :=
  ⟨"R", fun _ => DeleteOutcome.status 204, fun _ => SendRes.ok (some "N1")⟩

/-- The empty cache (first run: no prior state). -/
def cache0 : Cache := ⟨none, none, []⟩

/-- A cache recording a previous alert message id "OLD". -/
def cacheOld : Cache := ⟨none, some "OLD", []⟩

theorem envAllOk_send_ne_raise : ∀ j, envAllOk.send j ≠ SendRes.raise := by
  intro j h
  simp [envAllOk] at h

/-- Witness for C2: zone "Cathedral", stage 30min (readings 30 then 31), all
sends succeeding: the first run sends one alert and records the dedup key, the
second run's alert branch is silent. -/
theorem alert_dedup_idempotent_witness :
    countSends (runMain envAllOk cache0 (some "A") (some "Cathedral")
      30 100 false).alertOps = 1 ∧
    (runMain envAllOk cache0 (some "A") (some "Cathedral")
      30 100 false).persisted.getFired
      (orUnknown (some "Cathedral") ++ "_" ++ determine_stage 30) = true ∧
    (runMain envAllOk (runMain envAllOk cache0 (some "A") (some "Cathedral")
      30 100 false).persisted (some "A") (some "Cathedral")
      31 101 false).alertOps = [] :=
  alert_dedup_idempotent envAllOk envAllOk cache0 (some "A") (some "A")
    (some "Cathedral") 30 31 100 101 (by decide) (by decide) (by decide)
    (by decide) envAllOk_send_ne_raise

theorem alertTrack_send_shape (env : Env) (c sv : Cache) (k : Nat)
    (nxt : Option String) (mins e : Int) (force : Bool)
    (h : containsSend (alertTrack env c sv k nxt mins e force).ops = true)
    (hc : (alertTrack env c sv k nxt mins e force).crashed = false) :
    (∀ id, c.lastAlertMessageId = some id → id ≠ "" →
      (alertTrack env c sv k nxt mins e force).ops.head? = some (Op.delete id)) ∧
    env.send k = SendRes.ok
      ((alertTrack env c sv k nxt mins e force).saved.lastAlertMessageId) := by
  by_cases h1 : force = false ∧ zoneInWatchlist nxt = false ∧
      determine_stage mins = "initial"
  · obtain ⟨hf, hz, hi⟩ := h1
    subst hf
    rw [alertTrack_cleanup env c sv k nxt mins e hz hi] at h
    split_ifs at h <;> simp [containsSend, Op.isSend] at h
  · by_cases h2 : force = false ∧ determine_stage mins = "outside_window"
    · have heq : alertTrack env c sv k nxt mins e force = ⟨[], sv, false⟩ := by
        simp only [alertTrack]
        rw [if_neg h1, if_pos h2]
      rw [heq] at h
      simp [containsSend] at h
    · by_cases h3 : zoneInWatchlist nxt = false ∧ force = false
      · have heq : alertTrack env c sv k nxt mins e force = ⟨[], sv, false⟩ := by
          simp only [alertTrack]
          rw [if_neg h1, if_neg h2, if_pos h3]
        rw [heq] at h
        simp [containsSend] at h
      · by_cases h4 : force = false ∧
            c.getFired (orUnknown nxt ++ "_" ++ determine_stage mins) = true
        · have heq : alertTrack env c sv k nxt mins e force = ⟨[], sv, false⟩ := by
            simp only [alertTrack]
            rw [if_neg h1, if_neg h2, if_neg h3, if_pos h4]
          rw [heq] at h
          simp [containsSend] at h
        · cases hk : env.send k with
          | raise =>
            rw [alertTrack_send_raise env c sv k nxt mins e force
              h1 h2 h3 h4 hk] at hc
            simp at hc
          | ok newId =>
            rw [alertTrack_send_ok env c sv k nxt mins e force newId
              h1 h2 h3 h4 hk]
            constructor
            · intro id hid hne
              simp [hid, truthyS, hne]
            · rfl

/-- C3: after any run whose alert branch creates a new countdown alert (and
does not crash), the persisted cache's alert message id is exactly the id the
create returned — at most one live alert id is stored; when the pre-run cache
recorded a previous alert id, that id's delete is the first alert-branch
operation, issued before the create; and an HTTP 404 on delete counts as
success. -/
theorem replace_not_accumulate (env : Env) (c0 : Cache) (cur nxt : Option String)
    (mins e : Int) (force : Bool) (r : RunResult)
    (hr : r = runMain env c0 cur nxt mins e force) :
    (containsSend r.alertOps = true → r.crashed = false →
      ((∀ id, c0.lastAlertMessageId = some id → id ≠ "" →
          r.alertOps.head? = some (Op.delete id)) ∧
        (∃ j, env.send j = SendRes.ok r.persisted.lastAlertMessageId))) ∧
    (∀ i, i ≠ "" → delete_message_by_id i (DeleteOutcome.status 404) = true) := by
  subst hr
  constructor
  · intro hsend hcrash
    by_cases hnzc : truthyS nxt = false ∧ truthyS cur = false
    · rw [show runMain env c0 cur nxt mins e force = ⟨[], [], c0, false⟩ by
        simp only [runMain, if_pos hnzc]] at hsend
      simp [containsSend] at hsend
    · by_cases hcond : determine_stage mins = "initial" ∨ force = true
      · cases hs0 : env.send 0 with
        | raise =>
          rw [runMain_info_raise env c0 cur nxt mins e force hnzc hcond hs0]
            at hcrash
          simp at hcrash
        | ok id0 =>
          rw [runMain_info_ok env c0 cur nxt mins e force id0 hnzc hcond hs0]
            at hsend hcrash ⊢
          dsimp only at hsend hcrash ⊢
          obtain ⟨ha, hb⟩ := alertTrack_send_shape env (infoCache env c0 id0)
            (infoCache env c0 id0) 1 nxt mins e force hsend hcrash
          simp only [infoCache_lastAlert] at ha
          exact ⟨ha, ⟨1, hb⟩⟩
      · rw [runMain_skip_info env c0 cur nxt mins e force hnzc hcond]
          at hsend hcrash ⊢
        dsimp only at hsend hcrash ⊢
        obtain ⟨ha, hb⟩ := alertTrack_send_shape env c0 c0 0 nxt mins e force
          hsend hcrash
        exact ⟨ha, ⟨0, hb⟩⟩
  · intro i hi
    simp [delete_message_by_id, hi]

/-- Witness for C3 at a concrete 30-minute-stage run replacing alert id
"OLD". -/
theorem replace_not_accumulate_witness :
    (runMain envAllOk cacheOld (some "A") (some "Cathedral")
      30 100 false).alertOps.head? = some (Op.delete "OLD") ∧
    (∃ j, envAllOk.send j = SendRes.ok
      (runMain envAllOk cacheOld (some "A") (some "Cathedral")
        30 100 false).persisted.lastAlertMessageId) ∧
    delete_message_by_id "Z" (DeleteOutcome.status 404) = true := by
  have h := replace_not_accumulate envAllOk cacheOld (some "A")
    (some "Cathedral") 30 100 false _ rfl
  have h1 := h.1 (by decide) (by decide)
  exact ⟨h1.1 "OLD" rfl (by decide), h1.2, h.2 "Z" (by decide)⟩

/-- C7: when the scraped next zone is present (truthy) but not a member of
the watchlist and force is disabled, the alert branch issues no message
create, whatever stage the clock resolves to. -/
theorem watchlist_gating (env : Env) (c0 : Cache) (cur nxt : Option String)
    (mins e : Int)
    (hnz : truthyS nxt = true)
    (hw : zoneInWatchlist nxt = false) :
    sendsOf (runMain env c0 cur nxt mins e false).alertOps = [] := by
  have hnzc : ¬ (truthyS nxt = false ∧ truthyS cur = false) := by simp [hnz]
  by_cases hcond : determine_stage mins = "initial" ∨ false = true
  · cases hs0 : env.send 0 with
    | raise =>
      rw [runMain_info_raise env c0 cur nxt mins e false hnzc hcond hs0]
      rfl
    | ok id0 =>
      rw [runMain_info_ok env c0 cur nxt mins e false id0 hnzc hcond hs0]
      dsimp only
      exact alertTrack_not_watched env _ _ 1 nxt mins e hw
  · rw [runMain_skip_info env c0 cur nxt mins e false hnzc hcond]
    dsimp only
    exact alertTrack_not_watched env c0 c0 0 nxt mins e hw

/-- Witness for C7: zone "X" outside the watchlist at a 30-minute reading. -/
theorem watchlist_gating_witness :
    sendsOf (runMain envAllOk cache0 (some "A") (some "X")
      30 100 false).alertOps = [] :=
  watchlist_gating envAllOk cache0 (some "A") (some "X") 30 100
    (by decide) (by decide)

/-- C6: with force enabled, the next zone present but unwatched, and the
stage resolving to outside_window, the alert branch still sends exactly one
alert, built with the initial-stage template, and it first deletes the
previously recorded alert message when one exists. -/
theorem force_override (env : Env) (c0 : Cache) (cur nxt : Option String)
    (mins e : Int)
    (hnz : truthyS nxt = true)
    (hw : zoneInWatchlist nxt = false)
    (hs : determine_stage mins = "outside_window")
    (hsend : ∀ j, env.send j ≠ SendRes.raise) :
    sendsOf (runMain env c0 cur nxt mins e true).alertOps =
      [build_alert_message env.roleId (orUnknown nxt) "initial" e] ∧
    (∀ id, c0.lastAlertMessageId = some id → id ≠ "" →
      (runMain env c0 cur nxt mins e true).alertOps.head? =
        some (Op.delete id)) := by
  have hnzc : ¬ (truthyS nxt = false ∧ truthyS cur = false) := by simp [hnz]
  obtain ⟨id0, hid0⟩ : ∃ r, env.send 0 = SendRes.ok r := by
    cases h : env.send 0 with
    | raise => exact absurd h (hsend 0)
    | ok r => exact ⟨r, rfl⟩
  obtain ⟨id1, hid1⟩ : ∃ r, env.send 1 = SendRes.ok r := by
    cases h : env.send 1 with
    | raise => exact absurd h (hsend 1)
    | ok r => exact ⟨r, rfl⟩
  rw [runMain_info_ok env c0 cur nxt mins e true id0 hnzc (Or.inr rfl) hid0]
  dsimp only
  rw [alertTrack_send_ok env (infoCache env c0 id0) (infoCache env c0 id0)
    1 nxt mins e true id1 (by simp) (by simp) (by simp [hw]) (by simp) hid1]
  dsimp only
  constructor
  · cases htr : truthyS (infoCache env c0 id0).lastAlertMessageId <;>
      simp [htr, sendsOf, Op.isSend, hs]
  · intro id hid hne
    have hA : (infoCache env c0 id0).lastAlertMessageId = some id := by
      rw [infoCache_lastAlert, hid]
    simp [hA, truthyS, hne]

/-- Witness for C6: watchlist-absent zone "X" at a 40-minute reading with
force, replacing alert id "OLD". -/
theorem force_override_witness :
    sendsOf (runMain envAllOk cacheOld (some "A") (some "X")
      40 100 true).alertOps =
      [build_alert_message envAllOk.roleId (orUnknown (some "X"))
        "initial" 100] ∧
    (runMain envAllOk cacheOld (some "A") (some "X")
      40 100 true).alertOps.head? = some (Op.delete "OLD") := by
  have h := force_override envAllOk cacheOld (some "A") (some "X") 40 100
    (by decide) (by decide) (by decide) envAllOk_send_ne_raise
  exact ⟨h.1, h.2 "OLD" rfl (by decide)⟩

theorem alertTrack_cleanup_spec (env : Env) (c sv : Cache) (k : Nat)
    (nxt : Option String) (mins e : Int) (id : String)
    (hz : zoneInWatchlist nxt = false)
    (hi : determine_stage mins = "initial")
    (hid : c.lastAlertMessageId = some id) (hne : id ≠ "") :
    (alertTrack env c sv k nxt mins e false).ops = [Op.delete id] ∧
    (delete_message_by_id id (env.deleteHttp id) = true →
      (alertTrack env c sv k nxt mins e false).saved.lastAlertMessageId
        = none) := by
  rw [alertTrack_cleanup env c sv k nxt mins e hz hi, hid]
  simp only [Option.getD_some]
  have htr : truthyS (some id) = true := by simp [truthyS, hne]
  rw [if_pos htr]
  constructor
  · split_ifs <;> rfl
  · intro hdel
    rw [if_pos hdel]

/-- C5 counterexample: with force enabled and the scraped next zone absent,
the run does send a countdown alert (zone label "Unknown"), contradicting the
claim that no alert is sent when next_zone is absent regardless of flags. -/
theorem missing_next_zone_counterexample :
    containsSend (runMain envAllOk cache0 (some "A") none
      40 100 true).alertOps = true := by
  decide

/-- C5 amended: with force disabled, a run whose snapshot lacks next_zone
sends no countdown alert; and when the stage resolves to initial and a
previous alert id is recorded, the alert branch's only operation is that id's
delete, and if the delete reports success the id is cleared from the
persisted state. -/
theorem missing_next_zone (env : Env) (c0 : Cache) (cur : Option String)
    (mins e : Int)
    (hcur : truthyS cur = true)
    (hsend : ∀ j, env.send j ≠ SendRes.raise) :
    sendsOf (runMain env c0 cur none mins e false).alertOps = [] ∧
    (determine_stage mins = "initial" → ∀ id,
      c0.lastAlertMessageId = some id → id ≠ "" →
      (runMain env c0 cur none mins e false).alertOps = [Op.delete id] ∧
      (delete_message_by_id id (env.deleteHttp id) = true →
        (runMain env c0 cur none mins e false).persisted.lastAlertMessageId
          = none)) := by
  have hnzc : ¬ (truthyS (none : Option String) = false ∧
      truthyS cur = false) := by simp [hcur]
  have hw : zoneInWatchlist none = false := rfl
  by_cases hi : determine_stage mins = "initial"
  · obtain ⟨id0, hid0⟩ : ∃ r, env.send 0 = SendRes.ok r := by
      cases h : env.send 0 with
      | raise => exact absurd h (hsend 0)
      | ok r => exact ⟨r, rfl⟩
    rw [runMain_info_ok env c0 cur none mins e false id0 hnzc (Or.inl hi) hid0]
    dsimp only
    constructor
    · exact alertTrack_not_watched env _ _ 1 none mins e hw
    · intro _h id hid hne
      have hA : (infoCache env c0 id0).lastAlertMessageId = some id := by
        rw [infoCache_lastAlert, hid]
      exact alertTrack_cleanup_spec env (infoCache env c0 id0)
        (infoCache env c0 id0) 1 none mins e id hw hi hA hne
  · rw [runMain_skip_info env c0 cur none mins e false hnzc (by simp [hi])]
    dsimp only
    exact ⟨alertTrack_not_watched env c0 c0 0 none mins e hw,
      fun h2 => absurd h2 hi⟩

/-- Witness for C5 (amended) at a 55-minute reading with recorded alert id
"OLD" and a delete answered 204. -/
theorem missing_next_zone_witness :
    sendsOf (runMain envAllOk cacheOld (some "A") none
      55 100 false).alertOps = [] ∧
    (runMain envAllOk cacheOld (some "A") none
      55 100 false).alertOps = [Op.delete "OLD"] ∧
    (runMain envAllOk cacheOld (some "A") none
      55 100 false).persisted.lastAlertMessageId = none := by
  have h := missing_next_zone envAllOk cacheOld (some "A") 55 100 (by decide)
    envAllOk_send_ne_raise
  have h2 := h.2 (by decide) "OLD" rfl (by decide)
  exact ⟨h.1, h2.1, h2.2 (by decide)⟩

/-- C4 counterexample: two consecutive runs at an initial-stage reading with
identical current and next zones; the second run still recreates the
informational post (its informational branch issues a create), contradicting
the claim that an unchanged zone pair leaves the post untouched. -/
theorem info_refresh_counterexample :
    containsSend (runMain envAllOk
      (runMain envAllOk cache0 (some "A") (some "X") 55 100 false).persisted
      (some "A") (some "X") 55 100 false).infoOps = true := by
  decide

/-- C4 amended: the code records no zone pair and performs no comparison; the
informational post is replaced (previous deleted when recorded, new one
created) on every run whose stage guess is initial or whose force flag is
set, even when both zones are unchanged, and on all other runs the
informational branch issues no operation even if the zones changed. -/
theorem info_branch_refresh (env : Env) (c0 : Cache) (cur nxt : Option String)
    (mins e : Int) (force : Bool)
    (hnzc : ¬ (truthyS nxt = false ∧ truthyS cur = false)) :
    ((determine_stage mins = "initial" ∨ force = true) →
      countSends (runMain env c0 cur nxt mins e force).infoOps = 1 ∧
      (∀ id, c0.lastInfoMessageId = some id → id ≠ "" →
        (runMain env c0 cur nxt mins e force).infoOps.head?
          = some (Op.delete id))) ∧
    (¬ (determine_stage mins = "initial" ∨ force = true) →
      (runMain env c0 cur nxt mins e force).infoOps = []) := by
  constructor
  · intro hcond
    cases hs0 : env.send 0 with
    | raise =>
      rw [runMain_info_raise env c0 cur nxt mins e force hnzc hcond hs0]
      constructor
      · cases htr : truthyS c0.lastInfoMessageId <;>
          simp [htr, countSends, sendsOf, Op.isSend]
      · intro id hid hne
        simp [hid, truthyS, hne]
    | ok id0 =>
      rw [runMain_info_ok env c0 cur nxt mins e force id0 hnzc hcond hs0]
      constructor
      · cases htr : truthyS c0.lastInfoMessageId <;>
          simp [htr, countSends, sendsOf, Op.isSend]
      · intro id hid hne
        simp [hid, truthyS, hne]
  · intro hncond
    rw [runMain_skip_info env c0 cur nxt mins e force hnzc hncond]

/-- Witness for C4 (amended): an initial-stage run with recorded info post id
"I1" deletes it and creates exactly one new post. -/
theorem info_branch_refresh_witness :
    countSends (runMain envAllOk (Cache.mk (some "I1") none [])
      (some "A") (some "X") 55 100 false).infoOps = 1 ∧
    (runMain envAllOk (Cache.mk (some "I1") none [])
      (some "A") (some "X") 55 100 false).infoOps.head?
        = some (Op.delete "I1") := by
  have h := info_branch_refresh envAllOk (Cache.mk (some "I1") none [])
    (some "A") (some "X") 55 100 false (by decide)
  have h1 := h.1 (by decide)
  exact ⟨h1.1, h1.2 "I1" rfl (by decide)⟩

/-- A webhook environment whose deletes answer 204 but whose sends all
raise. -/
def envSendFails : Env :=
  ⟨"R", fun _ => DeleteOutcome.status 204, fun _ => SendRes.raise⟩

theorem infoCache_fired (env : Env) (c0 : Cache) (newId : Option String) :
    (infoCache env c0 newId).fired = c0.fired := by
  unfold infoCache
  split <;> rfl

theorem alertTrack_crash_shape (env : Env) (c sv : Cache) (k : Nat)
    (nxt : Option String) (mins e : Int) (force : Bool)
    (hc : (alertTrack env c sv k nxt mins e force).crashed = true) :
    (alertTrack env c sv k nxt mins e force).ops ≠ [] ∧
    ((alertTrack env c sv k nxt mins e force).saved = sv ∨
      (alertTrack env c sv k nxt mins e force).saved =
        { c with lastAlertMessageId := none }) := by
  by_cases h1 : force = false ∧ zoneInWatchlist nxt = false ∧
      determine_stage mins = "initial"
  · obtain ⟨hf, hz, hi⟩ := h1
    subst hf
    rw [alertTrack_cleanup env c sv k nxt mins e hz hi] at hc
    split_ifs at hc
  · by_cases h2 : force = false ∧ determine_stage mins = "outside_window"
    · have heq : alertTrack env c sv k nxt mins e force = ⟨[], sv, false⟩ := by
        simp only [alertTrack]
        rw [if_neg h1, if_pos h2]
      rw [heq] at hc
      simp at hc
    · by_cases h3 : zoneInWatchlist nxt = false ∧ force = false
      · have heq : alertTrack env c sv k nxt mins e force = ⟨[], sv, false⟩ := by
          simp only [alertTrack]
          rw [if_neg h1, if_neg h2, if_pos h3]
        rw [heq] at hc
        simp at hc
      · by_cases h4 : force = false ∧
            c.getFired (orUnknown nxt ++ "_" ++ determine_stage mins) = true
        · have heq : alertTrack env c sv k nxt mins e force = ⟨[], sv, false⟩ := by
            simp only [alertTrack]
            rw [if_neg h1, if_neg h2, if_neg h3, if_pos h4]
          rw [heq] at hc
          simp at hc
        · cases hk : env.send k with
          | ok newId =>
            rw [alertTrack_send_ok env c sv k nxt mins e force newId
              h1 h2 h3 h4 hk] at hc
            simp at hc
          | raise =>
            rw [alertTrack_send_raise env c sv k nxt mins e force
              h1 h2 h3 h4 hk]
            constructor
            · cases htr : truthyS c.lastAlertMessageId <;> simp [htr]
            · split_ifs <;> first | exact Or.inl rfl | exact Or.inr rfl

/-- C8 counterexample: a 30-minute-stage run for a watched zone with recorded
previous alert "OLD" and a failing create: the run crashes, yet the persisted
state differs from the pre-run state — the clearing of the previous alert id
was saved before the create was attempted. -/
theorem failed_create_counterexample :
    (runMain envSendFails cacheOld (some "A") (some "Cathedral")
      30 100 false).crashed = true ∧
    (runMain envSendFails cacheOld (some "A") (some "Cathedral")
      30 100 false).persisted ≠ cacheOld := by
  decide

/-- C8 amended: a failed create aborts the run without recording a dedup key
or a new message id: on a crash the persisted dedup set equals the pre-run
set; the persisted alert id is the pre-run id or none (none exactly when the
alert branch had already deleted the previous alert and saved that clearing
before the failed create); and when the crash happened in the informational
branch — no alert-branch operation was issued — the persisted state is
exactly the pre-run state. -/
theorem failed_create_no_partial_record (env : Env) (c0 : Cache)
    (cur nxt : Option String) (mins e : Int) (force : Bool) (r : RunResult)
    (hr : r = runMain env c0 cur nxt mins e force)
    (hc : r.crashed = true) :
    r.persisted.fired = c0.fired ∧
    (r.persisted.lastAlertMessageId = c0.lastAlertMessageId ∨
      r.persisted.lastAlertMessageId = none) ∧
    (r.alertOps = [] → r.persisted = c0) := by
  subst hr
  by_cases hnzc : truthyS nxt = false ∧ truthyS cur = false
  · rw [show runMain env c0 cur nxt mins e force = ⟨[], [], c0, false⟩ by
      simp only [runMain, if_pos hnzc]] at hc ⊢
    simp at hc
  · by_cases hcond : determine_stage mins = "initial" ∨ force = true
    · cases hs0 : env.send 0 with
      | raise =>
        rw [runMain_info_raise env c0 cur nxt mins e force hnzc hcond hs0]
        exact ⟨rfl, Or.inl rfl, fun _ => rfl⟩
      | ok id0 =>
        rw [runMain_info_ok env c0 cur nxt mins e force id0 hnzc hcond hs0]
          at hc ⊢
        dsimp only at hc ⊢
        obtain ⟨hne, hsv⟩ := alertTrack_crash_shape env (infoCache env c0 id0)
          (infoCache env c0 id0) 1 nxt mins e force hc
        refine ⟨?_, ?_, fun h => absurd h hne⟩
        · rcases hsv with h | h <;> rw [h] <;>
            simp [infoCache_fired]
        · rcases hsv with h | h <;> rw [h]
          · exact Or.inl (infoCache_lastAlert env c0 id0)
          · exact Or.inr rfl
    · rw [runMain_skip_info env c0 cur nxt mins e force hnzc hcond] at hc ⊢
      dsimp only at hc ⊢
      obtain ⟨hne, hsv⟩ := alertTrack_crash_shape env c0 c0 0 nxt mins e
        force hc
      refine ⟨?_, ?_, fun h => absurd h hne⟩
      · rcases hsv with h | h <;> rw [h]
      · rcases hsv with h | h <;> rw [h]
        · exact Or.inl rfl
        · exact Or.inr rfl

/-- Witness for C8 (amended) at the crashing 30-minute run replacing alert
"OLD". -/
theorem failed_create_no_partial_record_witness :
    (runMain envSendFails cacheOld (some "A") (some "Cathedral")
      30 100 false).persisted.fired = cacheOld.fired ∧
    ((runMain envSendFails cacheOld (some "A") (some "Cathedral")
      30 100 false).persisted.lastAlertMessageId = cacheOld.lastAlertMessageId ∨
      (runMain envSendFails cacheOld (some "A") (some "Cathedral")
        30 100 false).persisted.lastAlertMessageId = none) := by
  have h := failed_create_no_partial_record envSendFails cacheOld (some "A")
    (some "Cathedral") 30 100 false _ rfl (by decide)
  exact ⟨h.1, h.2.1⟩

theorem runDemoLoop_ok (env : Env) (e : Int) (zones : List String) (k : Nat)
    (hsend : ∀ j, env.send j ≠ SendRes.raise) :
    runDemoLoop env e zones k =
      (zones.map (fun z => Op.send (build_alert_message env.roleId z
        "initial" e)), false) := by
  induction zones generalizing k with
  | nil => rfl
  | cons z rest ih =>
    simp only [runDemoLoop]
    cases h : env.send k with
    | raise => exact absurd h (hsend k)
    | ok i =>
      dsimp only
      rw [ih (k + 1)]
      rfl

/-- C9: with the demo flag set the run issues exactly one initial-stage alert
per watchlist entry (in watchlist order), performs no informational-branch
operation, leaves the persisted state untouched, and its operations do not
depend on the loaded cache, the scraped zones, the clock reading or the force
flag — ZoneSource and AlertState are bypassed. -/
theorem demo_mode (env : Env) (c0 : Cache) (cur nxt : Option String)
    (mins e : Int) (force : Bool)
    (hsend : ∀ j, env.send j ≠ SendRes.raise) :
    (runScript env true c0 cur nxt mins e force).alertOps =
      WATCHLIST.map (fun z => Op.send (build_alert_message env.roleId z
        "initial" e)) ∧
    (runScript env true c0 cur nxt mins e force).infoOps = [] ∧
    (runScript env true c0 cur nxt mins e force).persisted = c0 ∧
    (runScript env true c0 cur nxt mins e force).crashed = false ∧
    (∀ c1 cur1 nxt1 mins1 force1,
      (runScript env true c1 cur1 nxt1 mins1 e force1).alertOps =
        (runScript env true c0 cur nxt mins e force).alertOps) := by
  have hd : ∀ (c : Cache) (cu nx : Option String) (m : Int) (f : Bool),
      runScript env true c cu nx m e f =
        ⟨[], WATCHLIST.map (fun z => Op.send (build_alert_message env.roleId z
          "initial" e)), c, false⟩ := by
    intro c cu nx m f
    simp only [runScript, if_true]
    rw [runDemoLoop_ok env e WATCHLIST 0 hsend]
  rw [hd c0 cur nxt mins force]
  refine ⟨rfl, rfl, rfl, rfl, ?_⟩
  intro c1 cur1 nxt1 mins1 force1
  rw [hd c1 cur1 nxt1 mins1 force1]

/-- Witness for C9 with every send succeeding, starting from the "OLD"-alert
cache (which must be returned untouched); a run differing in cache, zones,
clock and force produces the same operations. -/
theorem demo_mode_witness :
    (runScript envAllOk true cacheOld (some "A") (some "Cathedral")
      30 100 false).alertOps =
      WATCHLIST.map (fun z => Op.send (build_alert_message envAllOk.roleId z
        "initial" 100)) ∧
    (runScript envAllOk true cacheOld (some "A") (some "Cathedral")
      30 100 false).infoOps = [] ∧
    (runScript envAllOk true cacheOld (some "A") (some "Cathedral")
      30 100 false).persisted = cacheOld ∧
    (runScript envAllOk true cacheOld (some "A") (some "Cathedral")
      30 100 false).crashed = false ∧
    (runScript envAllOk true cache0 (some "B") none 5 100 true).alertOps =
      (runScript envAllOk true cacheOld (some "A") (some "Cathedral")
        30 100 false).alertOps := by
  have h := demo_mode envAllOk cacheOld (some "A") (some "Cathedral")
    30 100 false envAllOk_send_ne_raise
  exact ⟨h.1, h.2.1, h.2.2.1, h.2.2.2.1,
    h.2.2.2.2 cache0 (some "B") none 5 true⟩
